import Mathlib

/-!
Verification of the gRPC sharding proxy
(`linera-service/src/grpc_proxy.rs`).

The proxy inspects each inbound request, extracts a routing key (a chain
id), resolves it against the internal network configuration to a shard,
obtains a pooled client for that shard's address, and forwards the call,
relaying the backend's answer verbatim.

The embedding keeps the source's names and control flow.  Parts of the
repository that the source file uses but that are not part of it (the
`bcs` decoders, the gRPC `ChainId` conversion, `ConnectionPool`, and
`ValidatorInternalNetworkConfig::get_shard_for`) are modelled from the
spec, with doc comments saying so.  Stateful handlers are modelled as
pure functions returning the result, the updated proxy state, and a
trace of externally visible events (pool lookups and outbound
forwards), so that claims of the form "no outbound connection is
attempted" become statements about the trace.
-/

namespace GrpcProxySpec

/-- The canonical routing key (`linera_base::messages::ChainId`), an
opaque comparable identifier. -/
abbrev ChainId := Nat

/-- A backend network address (the `String` produced by
`ShardConfig::http_address`). -/
abbrev Address := String

/-- An established client handle (a `tonic` channel), opaque here. -/
abbrev Client := Nat

/-- An opaque successful response payload (`ChainInfoResult` or `()`),
relayed without inspection. -/
abbrev Resp := Nat

/-- The wire form of a chain id inside a `ChainInfoQuery`
(protobuf bytes, prior to conversion to `ChainId`). -/
abbrev WireChainId := List Nat

/-- A block, as far as the proxy looks at it: it carries its chain id
(`linera_chain::messages::Block.chain_id`). -/
structure Block where
  chain_id : ChainId
deriving DecidableEq, Repr

/-- `linera_chain::messages::BlockAndRound`: the record decoded from a
proposal's `content` bytes. -/
structure BlockAndRound where
  block : Block
  round : Nat
deriving DecidableEq, Repr

/-- Modelled from the spec: a certificate's signed-value record
(`linera_chain::messages::Value`); the routing key is the chain
identifier derivable from the value (`Value::chain_id`). -/
structure Value where
  chain_id : ChainId
deriving DecidableEq, Repr

/-- Modelled from the spec: the structured cross-chain-request record
(`linera_core::messages::CrossChainRequest`); the routing key is its
declared target chain identifier (`target_chain_id`). -/
structure CoreCrossChainRequest where
  target_chain_id : ChainId
deriving DecidableEq, Repr

/-- The wire `BlockProposal` message: the proxy only reads its
`content` bytes. -/
structure BlockProposal where
  content : List Nat
deriving DecidableEq, Repr

/-- The wire `Certificate` message: the proxy only reads its `value`
bytes. -/
structure Certificate where
  value : List Nat
deriving DecidableEq, Repr

/-- The wire `ChainInfoQuery` message: carries an optional explicit
chain-id field (no embedded decode needed). -/
structure ChainInfoQuery where
  chain_id : Option WireChainId
deriving DecidableEq, Repr

/-- The wire `CrossChainRequest` message, opaque bytes to the proxy
until converted to the core record. -/
structure CrossChainRequest where
  data : List Nat
deriving DecidableEq, Repr

/-- Modelled from the spec: the external decoding and conversion
collaborators used by the `Proxyable` impls, none of which are part of
the source file: `bcs::from_bytes::<BlockAndRound>`,
`bcs::from_bytes::<Value>`, the `TryInto<ChainId>` conversion on the
wire chain id, and `TryFrom` into the core cross-chain-request record.
Each is best-effort: failure is `none`. -/
structure DecodeEnv where
  decode_block_and_round : List Nat → Option BlockAndRound
  decode_value : List Nat → Option Value
  try_into_chain_id : WireChainId → Option ChainId
  try_from_cross_chain : CrossChainRequest → Option CoreCrossChainRequest

/-- One shard's configuration (`linera_rpc::config::ShardConfig`):
host and port of the backend. -/
structure ShardConfig where
  host : String
  port : Nat
deriving DecidableEq, Repr

/-- `ShardConfig::http_address`: the address a client is built for. -/
def ShardConfig.http_address (s : ShardConfig) : Address :=
  s.host ++ ":" ++ toString s.port

/-- `ValidatorPublicNetworkConfig`: the public listen configuration,
consumed read-only by the proxy. -/
structure ValidatorPublicNetworkConfig where
  host : String
  port : Nat
deriving DecidableEq, Repr

/-- `ValidatorInternalNetworkConfig`: owns the shard map queried by
routing. -/
structure ValidatorInternalNetworkConfig where
  shard_map : List (ChainId × ShardConfig)
deriving DecidableEq, Repr

/-- Modelled from the spec: `ValidatorInternalNetworkConfig::get_shard_for`
is not part of the source file; per the spec it is the pure
`ShardResolver.resolve(RoutingKey) -> Option<ShardAddress>` lookup
against the injected shard map, returning "not found" for keys outside
the known partitioning. -/
def ValidatorInternalNetworkConfig.get_shard_for
    (cfg : ValidatorInternalNetworkConfig) (chain_id : ChainId) :
    Option ShardConfig :=
  cfg.shard_map.lookup chain_id

/-- Modelled from the spec: `linera_rpc::pool::ConnectionPool` is not
part of the source file; per the spec it maps addresses to shareable
client handles, created lazily on first use and cached. -/
structure ConnectionPool where
  cache : List (Address × Client)
deriving DecidableEq, Repr

/-- `ConnectionPool::new`: an empty cache. -/
def ConnectionPool.new : ConnectionPool := ⟨[]⟩

/-- Modelled from the spec: `ConnectionPool::cloned_client_for_address`.
A cached handle for the address is cloned and returned without
reconnecting; otherwise the `connector` collaborator (connection
establishment, which may fail) is consulted: on success the new handle
is cached and returned, on failure the error is reported and nothing is
cached, so a later call may retry creation for the same address. -/
def ConnectionPool.cloned_client_for_address (pool : ConnectionPool)
    (connector : Address → Option Client) (address : Address) :
    Option Client × ConnectionPool :=
  match pool.cache.lookup address with
  | some client => (some client, pool)
  | none =>
    match connector address with
    | some client => (some client, ⟨(address, client) :: pool.cache⟩)
    | none => (none, pool)

/-- The proxy's state (`struct GrpcProxy`): the two injected network
configurations and the two connection pools, one per backend role. -/
structure GrpcProxy where
  public_config : ValidatorPublicNetworkConfig
  internal_config : ValidatorInternalNetworkConfig
  node_connection_pool : ConnectionPool
  worker_connection_pool : ConnectionPool
deriving DecidableEq, Repr

/-- `GrpcProxy::new`: both pools start empty; the configurations are
injected. -/
def GrpcProxy.new (public_config : ValidatorPublicNetworkConfig)
    (internal_config : ValidatorInternalNetworkConfig) : GrpcProxy :=
  { public_config := public_config
    internal_config := internal_config
    node_connection_pool := ConnectionPool.new
    worker_connection_pool := ConnectionPool.new }

/-- The four request payloads the proxy can route, one per RPC
method. -/
inductive Payload where
  | blockProposal (p : BlockProposal)
  | certificate (c : Certificate)
  | chainInfoQuery (q : ChainInfoQuery)
  | crossChainRequest (r : CrossChainRequest)
deriving DecidableEq, Repr

/-- The RPC method names forwarded by the proxy. -/
inductive Method where
  | handle_block_proposal
  | handle_certificate
  | handle_chain_info_query
  | handle_cross_chain_request
deriving DecidableEq, Repr

/-- Each wire request type belongs to exactly one RPC method. -/
def Payload.method : Payload → Method
  | .blockProposal _ => .handle_block_proposal
  | .certificate _ => .handle_certificate
  | .chainInfoQuery _ => .handle_chain_info_query
  | .crossChainRequest _ => .handle_cross_chain_request

/-- The two service interfaces the proxy exposes, each backed by its
own connection pool. -/
inductive Interface where
  | node
  | worker
deriving DecidableEq, Repr

/-- gRPC `Status` errors the proxy can produce or relay. -/
inductive Status where
  | not_found (msg : String)
  | internal (msg : String)
  | unknown (msg : String)
deriving DecidableEq, Repr

/-- Externally visible events of one proxied call: a connection-pool
lookup (which may create a connection) for an address on behalf of an
interface, and an outbound forward of a payload under a method name to
an address. -/
inductive Event where
  | pool_get (pool : Interface) (addr : Address)
  | forward (pool : Interface) (m : Method) (addr : Address) (payload : Payload)
deriving DecidableEq, Repr

/-- The interface (hence pool) an event acts on behalf of. -/
def Event.pool_tag : Event → Interface
  | .pool_get i _ => i
  | .forward i _ _ _ => i

/-- The `Proxyable` trait's `chain_id` method, with the four impls of
the source as the four cases: a proposal decodes its `content` as a
`BlockAndRound` and yields the block's chain id; a certificate decodes
its `value` as a `Value` and yields the value's chain id; a chain-info
query reads its explicit optional field and converts it; a cross-chain
request converts to the core record and yields its target chain id.
Every failure yields `none`. -/
def Proxyable.chain_id (env : DecodeEnv) : Payload → Option ChainId
  | .blockProposal p =>
    match env.decode_block_and_round p.content with
    | some block_and_round => some block_and_round.block.chain_id
    | none => none
  | .certificate c =>
    match env.decode_value c.value with
    | some value => some value.chain_id
    | none => none
  | .chainInfoQuery q => q.chain_id.bind env.try_into_chain_id
  | .crossChainRequest r =>
    match env.try_from_cross_chain r with
    | some cross_chain_request => some cross_chain_request.target_chain_id
    | none => none

/-- `GrpcProxy::shard_for`: extract the routing key, then resolve it
against the internal configuration (`get_shard_for` being spec-modelled
as an `Option`-valued lookup, the unconditional `Some(...)` of the
source composes into a bind). -/
def GrpcProxy.shard_for (env : DecodeEnv) (self : GrpcProxy)
    (proxyable : Payload) : Option ShardConfig :=
  (Proxyable.chain_id env proxyable).bind fun chain_id =>
    self.internal_config.get_shard_for chain_id

/-- `GrpcProxy::worker_client_for_shard`: look the shard's address up
in the worker connection pool. -/
def GrpcProxy.worker_client_for_shard (self : GrpcProxy)
    (connector : Address → Option Client) (shard : ShardConfig) :
    Option Client × GrpcProxy :=
  let res := self.worker_connection_pool.cloned_client_for_address connector
    shard.http_address
  (res.1, { self with worker_connection_pool := res.2 })

/-- `GrpcProxy::node_client_for_shard`: look the shard's address up in
the node connection pool. -/
def GrpcProxy.node_client_for_shard (self : GrpcProxy)
    (connector : Address → Option Client) (shard : ShardConfig) :
    Option Client × GrpcProxy :=
  let res := self.node_connection_pool.cloned_client_for_address connector
    shard.http_address
  (res.1, { self with node_connection_pool := res.2 })

/-- Selects the client lookup the `proxy!` invocation names: worker
handlers pass `worker_client_for_shard`, node handlers pass
`node_client_for_shard`. -/
def GrpcProxy.client_for_shard (self : GrpcProxy)
    (connector : Address → Option Client) (iface : Interface)
    (shard : ShardConfig) : Option Client × GrpcProxy :=
  match iface with
  | .node => self.node_client_for_shard connector shard
  | .worker => self.worker_client_for_shard connector shard

/-- The `proxy!` boilerplate: extract the chain id and resolve the
shard (`shard_for`), failing with `not_found` if absent; obtain a
pooled client for the shard, failing with `internal` if connection
establishment fails; otherwise invoke the same-named method on the
client, passing the request unmodified, and return its result
verbatim.  `backend` is the external shard behaviour (success payload
or backend-raised `Status`). -/
def GrpcProxy.proxy (env : DecodeEnv) (connector : Address → Option Client)
    (backend : Method → Address → Payload → Except Status Resp)
    (self : GrpcProxy) (iface : Interface) (req : Payload) :
    Except Status Resp × GrpcProxy × List Event :=
  match self.shard_for env req with
  | none => (.error (.not_found "could not find shard for message"), self, [])
  | some shard =>
    let res := self.client_for_shard connector iface shard
    match res.1 with
    | none =>
      (.error (.internal "could not connect to shard"), res.2,
        [.pool_get iface shard.http_address])
    | some _ =>
      (backend req.method shard.http_address req, res.2,
        [.pool_get iface shard.http_address,
         .forward iface req.method shard.http_address req])

/-- `impl ValidatorWorker for GrpcProxy`, `handle_block_proposal`. -/
def ValidatorWorker.handle_block_proposal (env : DecodeEnv)
    (connector : Address → Option Client)
    (backend : Method → Address → Payload → Except Status Resp)
    (self : GrpcProxy) (request : BlockProposal) :
    Except Status Resp × GrpcProxy × List Event :=
  GrpcProxy.proxy env connector backend self .worker (.blockProposal request)

/-- `impl ValidatorWorker for GrpcProxy`, `handle_certificate`. -/
def ValidatorWorker.handle_certificate (env : DecodeEnv)
    (connector : Address → Option Client)
    (backend : Method → Address → Payload → Except Status Resp)
    (self : GrpcProxy) (request : Certificate) :
    Except Status Resp × GrpcProxy × List Event :=
  GrpcProxy.proxy env connector backend self .worker (.certificate request)

/-- `impl ValidatorWorker for GrpcProxy`, `handle_chain_info_query`. -/
def ValidatorWorker.handle_chain_info_query (env : DecodeEnv)
    (connector : Address → Option Client)
    (backend : Method → Address → Payload → Except Status Resp)
    (self : GrpcProxy) (request : ChainInfoQuery) :
    Except Status Resp × GrpcProxy × List Event :=
  GrpcProxy.proxy env connector backend self .worker (.chainInfoQuery request)

/-- `impl ValidatorWorker for GrpcProxy`, `handle_cross_chain_request`. -/
def ValidatorWorker.handle_cross_chain_request (env : DecodeEnv)
    (connector : Address → Option Client)
    (backend : Method → Address → Payload → Except Status Resp)
    (self : GrpcProxy) (request : CrossChainRequest) :
    Except Status Resp × GrpcProxy × List Event :=
  GrpcProxy.proxy env connector backend self .worker (.crossChainRequest request)

/-- `impl ValidatorNode for GrpcProxy`, `handle_block_proposal`. -/
def ValidatorNode.handle_block_proposal (env : DecodeEnv)
    (connector : Address → Option Client)
    (backend : Method → Address → Payload → Except Status Resp)
    (self : GrpcProxy) (request : BlockProposal) :
    Except Status Resp × GrpcProxy × List Event :=
  GrpcProxy.proxy env connector backend self .node (.blockProposal request)

/-- `impl ValidatorNode for GrpcProxy`, `handle_certificate`. -/
def ValidatorNode.handle_certificate (env : DecodeEnv)
    (connector : Address → Option Client)
    (backend : Method → Address → Payload → Except Status Resp)
    (self : GrpcProxy) (request : Certificate) :
    Except Status Resp × GrpcProxy × List Event :=
  GrpcProxy.proxy env connector backend self .node (.certificate request)

/-- `impl ValidatorNode for GrpcProxy`, `handle_chain_info_query`. -/
def ValidatorNode.handle_chain_info_query (env : DecodeEnv)
    (connector : Address → Option Client)
    (backend : Method → Address → Payload → Except Status Resp)
    (self : GrpcProxy) (request : ChainInfoQuery) :
    Except Status Resp × GrpcProxy × List Event :=
  GrpcProxy.proxy env connector backend self .node (.chainInfoQuery request)

/-- The methods each `impl` block defines: the node interface forwards
three methods, the worker interface those three plus
`handle_cross_chain_request`. -/
def methodSurface : Interface → List Method
  | .node =>
    [.handle_block_proposal, .handle_certificate, .handle_chain_info_query]
  | .worker =>
    [.handle_block_proposal, .handle_certificate, .handle_chain_info_query,
     .handle_cross_chain_request]

/-- The pool the given interface's handlers draw clients from. -/
def GrpcProxy.pool_for (self : GrpcProxy) : Interface → ConnectionPool
  | .node => self.node_connection_pool
  | .worker => self.worker_connection_pool

/-! Concrete fixtures used to instantiate the theorems below on closed
inputs: a decoding environment with one recognised payload of each
kind, a three-entry shard map, and always-failing / always-succeeding
connectors. -/

/-- A concrete decoding environment: the proposal bytes `[1]` carry
chain id `5`, the certificate bytes `[2]` carry chain id `6`, the wire
chain id `[7]` converts to `7`, the cross-chain bytes `[3]` target
chain id `8`; everything else fails to decode. -/
def envA : DecodeEnv where
  decode_block_and_round := fun bs => if bs = [1] then some ⟨⟨5⟩, 0⟩ else none
  decode_value := fun bs => if bs = [2] then some ⟨6⟩ else none
  try_into_chain_id := fun w => if w = [7] then some 7 else none
  try_from_cross_chain := fun r => if r.data = [3] then some ⟨8⟩ else none

/-- A concrete shard. -/
def shardA : ShardConfig := ⟨"shard-a", 100⟩

/-- A second concrete shard. -/
def shardB : ShardConfig := ⟨"shard-b", 101⟩

/-- A concrete shard map assigning chain ids 5 and 8 to `shardA` and
chain id 6 to `shardB`; chain id 7 is unassigned. -/
def cfgA : ValidatorInternalNetworkConfig :=
  ⟨[(5, shardA), (6, shardB), (8, shardA)]⟩

/-- A freshly constructed proxy over the concrete configurations. -/
def selfA : GrpcProxy := GrpcProxy.new ⟨"0.0.0.0", 400⟩ cfgA

/-- A connector whose connection establishment always succeeds. -/
def connOk : Address → Option Client := fun _ => some 1

/-- A connector whose connection establishment always fails. -/
def connFail : Address → Option Client := fun _ => none

/-- A backend that answers every forwarded call with `Ok 42`. -/
def backendA : Method → Address → Payload → Except Status Resp :=
  fun _ _ _ => .ok 42

/-! Helper lemmas about the client lookup, shared by the proofs
below. -/

theorem client_for_shard_fst (self : GrpcProxy)
    (connector : Address → Option Client) (iface : Interface)
    (shard : ShardConfig) :
    (self.client_for_shard connector iface shard).1 =
      ((self.pool_for iface).cloned_client_for_address connector
        shard.http_address).1 := by
  cases iface <;> rfl

theorem client_for_shard_snd_public (self : GrpcProxy)
    (connector : Address → Option Client) (iface : Interface)
    (shard : ShardConfig) :
    (self.client_for_shard connector iface shard).2.public_config =
      self.public_config := by
  cases iface <;> rfl

theorem client_for_shard_snd_internal (self : GrpcProxy)
    (connector : Address → Option Client) (iface : Interface)
    (shard : ShardConfig) :
    (self.client_for_shard connector iface shard).2.internal_config =
      self.internal_config := by
  cases iface <;> rfl

theorem proxy_snd_public (env : DecodeEnv)
    (connector : Address → Option Client)
    (backend : Method → Address → Payload → Except Status Resp)
    (self : GrpcProxy) (iface : Interface) (req : Payload) :
    (GrpcProxy.proxy env connector backend self iface req).2.1.public_config =
      self.public_config := by
  cases hs : self.shard_for env req with
  | none => simp [GrpcProxy.proxy, hs]
  | some shard =>
    cases hc : (self.client_for_shard connector iface shard).1 <;>
      simp [GrpcProxy.proxy, hs, hc, client_for_shard_snd_public]

theorem proxy_snd_internal (env : DecodeEnv)
    (connector : Address → Option Client)
    (backend : Method → Address → Payload → Except Status Resp)
    (self : GrpcProxy) (iface : Interface) (req : Payload) :
    (GrpcProxy.proxy env connector backend self iface req).2.1.internal_config =
      self.internal_config := by
  cases hs : self.shard_for env req with
  | none => simp [GrpcProxy.proxy, hs]
  | some shard =>
    cases hc : (self.client_for_shard connector iface shard).1 <;>
      simp [GrpcProxy.proxy, hs, hc, client_for_shard_snd_internal]

/-- C1: for every request on any forwarded method of either interface
whose payload yields a routing key that the shard map assigns to a
shard, the proxy obtains that shard's address and invokes the
same-named method on a client for that address, passing the request
payload unmodified, and returns the backend's result (success payload
or backend-raised error) verbatim as its own result, with exactly one
outbound forward (no transformation, no retry). -/
theorem proxy_forwards_verbatim (env : DecodeEnv)
    (connector : Address → Option Client)
    (backend : Method → Address → Payload → Except Status Resp)
    (self : GrpcProxy) (iface : Interface) (req : Payload)
    (k : ChainId) (shard : ShardConfig)
    (h1 : Proxyable.chain_id env req = some k)
    (h2 : self.internal_config.get_shard_for k = some shard)
    (h3 : ((self.pool_for iface).cloned_client_for_address connector
      shard.http_address).1.isSome) :
    (GrpcProxy.proxy env connector backend self iface req).1 =
      backend req.method shard.http_address req ∧
    (GrpcProxy.proxy env connector backend self iface req).2.2 =
      [.pool_get iface shard.http_address,
       .forward iface req.method shard.http_address req] := by
  have hsf : self.shard_for env req = some shard := by
    simp [GrpcProxy.shard_for, h1, h2]
  obtain ⟨c, hc⟩ := Option.isSome_iff_exists.mp h3
  have hfst : (self.client_for_shard connector iface shard).1 = some c := by
    rw [client_for_shard_fst]; exact hc
  constructor <;> simp [GrpcProxy.proxy, hsf, hfst]

/-- Closed instance of C1: a worker-interface proposal whose content
decodes to chain id 5, assigned to `shardA`, is forwarded to
`shardA`'s address under the same method name with the payload
unmodified, and the backend's answer is the proxy's answer. -/
theorem proxy_forwards_verbatim_witness :
    (GrpcProxy.proxy envA connOk backendA selfA .worker
        (.blockProposal ⟨[1]⟩)).1 =
      backendA (Payload.blockProposal ⟨[1]⟩).method shardA.http_address
        (.blockProposal ⟨[1]⟩) ∧
    (GrpcProxy.proxy envA connOk backendA selfA .worker
        (.blockProposal ⟨[1]⟩)).2.2 =
      [.pool_get .worker shardA.http_address,
       .forward .worker (Payload.blockProposal ⟨[1]⟩).method
         shardA.http_address (.blockProposal ⟨[1]⟩)] :=
  proxy_forwards_verbatim envA connOk backendA selfA .worker
    (.blockProposal ⟨[1]⟩) 5 shardA rfl rfl rfl

/-- C2: for every request whose payload fails routing-key extraction,
the dispatcher fails immediately with the not-found "no route" error,
leaves the proxy state untouched and performs no pool lookup and no
outbound call (empty event trace). -/
theorem proxy_no_route_on_extraction_failure (env : DecodeEnv)
    (connector : Address → Option Client)
    (backend : Method → Address → Payload → Except Status Resp)
    (self : GrpcProxy) (iface : Interface) (req : Payload)
    (h : Proxyable.chain_id env req = none) :
    GrpcProxy.proxy env connector backend self iface req =
      (.error (.not_found "could not find shard for message"), self, []) := by
  simp [GrpcProxy.proxy, GrpcProxy.shard_for, h]

/-- Closed instance of C2: a proposal whose content `[9]` fails to
decode yields the not-found error with no events. -/
theorem proxy_no_route_on_extraction_failure_witness :
    GrpcProxy.proxy envA connOk backendA selfA .node (.blockProposal ⟨[9]⟩) =
      (.error (.not_found "could not find shard for message"), selfA, []) :=
  proxy_no_route_on_extraction_failure envA connOk backendA selfA .node
    (.blockProposal ⟨[9]⟩) rfl

/-- C3: for every request whose routing key is extracted but has no
assigned shard in the shard map, the proxy returns the same not-found
"no route" error class, leaves its state untouched and attempts no
outbound connection (empty event trace). -/
theorem proxy_no_route_on_unassigned_key (env : DecodeEnv)
    (connector : Address → Option Client)
    (backend : Method → Address → Payload → Except Status Resp)
    (self : GrpcProxy) (iface : Interface) (req : Payload) (k : ChainId)
    (h1 : Proxyable.chain_id env req = some k)
    (h2 : self.internal_config.get_shard_for k = none) :
    GrpcProxy.proxy env connector backend self iface req =
      (.error (.not_found "could not find shard for message"), self, []) := by
  simp [GrpcProxy.proxy, GrpcProxy.shard_for, h1, h2]

/-- Closed instance of C3: a chain-info query carrying wire chain id
`[7]` extracts key 7, which `cfgA` leaves unassigned, so the call
fails not-found with no events. -/
theorem proxy_no_route_on_unassigned_key_witness :
    GrpcProxy.proxy envA connOk backendA selfA .node
        (.chainInfoQuery ⟨some [7]⟩) =
      (.error (.not_found "could not find shard for message"), selfA, []) :=
  proxy_no_route_on_unassigned_key envA connOk backendA selfA .node
    (.chainInfoQuery ⟨some [7]⟩) 7 rfl rfl

/-- C4: the four-kind extraction contract. A proposal decodes its
content as a block-and-round record and yields the block's chain id; a
certificate decodes its value as a signed-value record and yields the
value's chain id; a chain-info query reads its explicit chain-id field
and converts it to the canonical key type; a cross-chain request
converts to the core cross-chain record and yields its target chain
id; and for every kind a decoding or conversion failure yields `none`
rather than an error. -/
theorem extraction_four_kind_contract (env : DecodeEnv) :
    (∀ p bar, env.decode_block_and_round p.content = some bar →
      Proxyable.chain_id env (.blockProposal p) = some bar.block.chain_id) ∧
    (∀ p : BlockProposal, env.decode_block_and_round p.content = none →
      Proxyable.chain_id env (.blockProposal p) = none) ∧
    (∀ c v, env.decode_value c.value = some v →
      Proxyable.chain_id env (.certificate c) = some v.chain_id) ∧
    (∀ c : Certificate, env.decode_value c.value = none →
      Proxyable.chain_id env (.certificate c) = none) ∧
    (∀ q w, q.chain_id = some w →
      Proxyable.chain_id env (.chainInfoQuery q) = env.try_into_chain_id w) ∧
    (∀ q : ChainInfoQuery, q.chain_id = none →
      Proxyable.chain_id env (.chainInfoQuery q) = none) ∧
    (∀ r ccr, env.try_from_cross_chain r = some ccr →
      Proxyable.chain_id env (.crossChainRequest r) =
        some ccr.target_chain_id) ∧
    (∀ r : CrossChainRequest, env.try_from_cross_chain r = none →
      Proxyable.chain_id env (.crossChainRequest r) = none) := by
  refine ⟨fun p bar h => ?_, fun p h => ?_, fun c v h => ?_, fun c h => ?_,
    fun q w h => ?_, fun q h => ?_, fun r ccr h => ?_, fun r h => ?_⟩ <;>
    simp [Proxyable.chain_id, h]

/-- Closed instance of C4: under `envA`, each of the four kinds
extracts the embedded chain id on its recognised payload, a malformed
proposal extracts nothing, and a chain-info query delegates to the
conversion of its explicit field. -/
theorem extraction_four_kind_contract_witness :
    Proxyable.chain_id envA (.blockProposal ⟨[1]⟩) = some 5 ∧
    Proxyable.chain_id envA (.blockProposal ⟨[9]⟩) = none ∧
    Proxyable.chain_id envA (.certificate ⟨[2]⟩) = some 6 ∧
    Proxyable.chain_id envA (.chainInfoQuery ⟨some [7]⟩) =
      envA.try_into_chain_id [7] ∧
    Proxyable.chain_id envA (.chainInfoQuery ⟨none⟩) = none ∧
    Proxyable.chain_id envA (.crossChainRequest ⟨[3]⟩) = some 8 :=
  ⟨(extraction_four_kind_contract envA).1 ⟨[1]⟩ ⟨⟨5⟩, 0⟩ rfl,
   (extraction_four_kind_contract envA).2.1 ⟨[9]⟩ rfl,
   (extraction_four_kind_contract envA).2.2.1 ⟨[2]⟩ ⟨6⟩ rfl,
   (extraction_four_kind_contract envA).2.2.2.2.1 ⟨some [7]⟩ [7] rfl,
   (extraction_four_kind_contract envA).2.2.2.2.2.1 ⟨none⟩ rfl,
   (extraction_four_kind_contract envA).2.2.2.2.2.2.1 ⟨[3]⟩ ⟨8⟩ rfl⟩

theorem client_for_shard_node_worker_pool (self : GrpcProxy)
    (connector : Address → Option Client) (shard : ShardConfig) :
    (self.client_for_shard connector .node shard).2.worker_connection_pool =
      self.worker_connection_pool := rfl

theorem client_for_shard_worker_node_pool (self : GrpcProxy)
    (connector : Address → Option Client) (shard : ShardConfig) :
    (self.client_for_shard connector .worker shard).2.node_connection_pool =
      self.node_connection_pool := rfl

/-- C5: the node pool and the worker pool never share a cached
connection: a node-interface call leaves the worker pool untouched, a
worker-interface call leaves the node pool untouched, and every pool
event of a call is tagged with the interface the call arrived on. -/
theorem pool_isolation (env : DecodeEnv)
    (connector : Address → Option Client)
    (backend : Method → Address → Payload → Except Status Resp)
    (self : GrpcProxy) (req : Payload) :
    (GrpcProxy.proxy env connector backend self .node
        req).2.1.worker_connection_pool = self.worker_connection_pool ∧
    (GrpcProxy.proxy env connector backend self .worker
        req).2.1.node_connection_pool = self.node_connection_pool ∧
    (∀ iface e,
      e ∈ (GrpcProxy.proxy env connector backend self iface req).2.2 →
        e.pool_tag = iface) := by
  refine ⟨?_, ?_, ?_⟩
  · cases hs : self.shard_for env req with
    | none => simp [GrpcProxy.proxy, hs]
    | some shard =>
      cases hc : (self.client_for_shard connector .node shard).1 <;>
        simp [GrpcProxy.proxy, hs, hc, client_for_shard_node_worker_pool]
  · cases hs : self.shard_for env req with
    | none => simp [GrpcProxy.proxy, hs]
    | some shard =>
      cases hc : (self.client_for_shard connector .worker shard).1 <;>
        simp [GrpcProxy.proxy, hs, hc, client_for_shard_worker_node_pool]
  · intro iface e
    cases hs : self.shard_for env req with
    | none => simp [GrpcProxy.proxy, hs]
    | some shard =>
      cases hc : (self.client_for_shard connector iface shard).1 with
      | none =>
        simp only [GrpcProxy.proxy, hs, hc, List.mem_singleton]
        rintro rfl
        rfl
      | some c =>
        simp only [GrpcProxy.proxy, hs, hc, List.mem_cons,
          List.mem_singleton, List.not_mem_nil, or_false]
        rintro (rfl | rfl) <;> rfl

/-- Closed instance of C5: the node-interface proposal call on the
fresh proxy leaves the worker pool untouched, and the pool event it
emits is tagged with the node interface. -/
theorem pool_isolation_witness :
    (GrpcProxy.proxy envA connOk backendA selfA .node
        (.blockProposal ⟨[1]⟩)).2.1.worker_connection_pool =
      selfA.worker_connection_pool ∧
    Event.pool_tag (.pool_get .node shardA.http_address) = .node :=
  ⟨(pool_isolation envA connOk backendA selfA (.blockProposal ⟨[1]⟩)).1,
   (pool_isolation envA connOk backendA selfA (.blockProposal ⟨[1]⟩)).2.2
     .node (.pool_get .node shardA.http_address) (by decide)⟩

theorem client_for_shard_of_fail (self : GrpcProxy)
    (connector : Address → Option Client) (iface : Interface)
    (shard : ShardConfig)
    (h : (self.pool_for iface).cloned_client_for_address connector
      shard.http_address = (none, self.pool_for iface)) :
    self.client_for_shard connector iface shard = (none, self) := by
  cases iface <;>
    simp only [GrpcProxy.pool_for] at h <;>
    simp [GrpcProxy.client_for_shard, GrpcProxy.node_client_for_shard,
      GrpcProxy.worker_client_for_shard, h]

/-- C6: if the routing key resolves to a shard but obtaining a client
for the shard's address fails (nothing cached and connection
establishment fails), the proxy returns the internal
"backend unreachable" error without any outbound forward and with its
state unchanged — the failure is not cached — so an identical later
call on the same state re-attempts creation and, when the connector
has recovered, relays the backend's result. -/
theorem connection_failure_not_cached (env : DecodeEnv)
    (conn1 conn2 : Address → Option Client)
    (backend : Method → Address → Payload → Except Status Resp)
    (self : GrpcProxy) (iface : Interface) (req : Payload)
    (k : ChainId) (shard : ShardConfig) (c : Client)
    (h1 : Proxyable.chain_id env req = some k)
    (h2 : self.internal_config.get_shard_for k = some shard)
    (h3 : (self.pool_for iface).cache.lookup shard.http_address = none)
    (h4 : conn1 shard.http_address = none)
    (h5 : conn2 shard.http_address = some c) :
    GrpcProxy.proxy env conn1 backend self iface req =
      (.error (.internal "could not connect to shard"), self,
        [.pool_get iface shard.http_address]) ∧
    (GrpcProxy.proxy env conn2 backend self iface req).1 =
      backend req.method shard.http_address req := by
  have hsf : self.shard_for env req = some shard := by
    simp [GrpcProxy.shard_for, h1, h2]
  constructor
  · have hfail : (self.pool_for iface).cloned_client_for_address conn1
        shard.http_address = (none, self.pool_for iface) := by
      simp [ConnectionPool.cloned_client_for_address, h3, h4]
    have hcl := client_for_shard_of_fail self conn1 iface shard hfail
    simp [GrpcProxy.proxy, hsf, hcl]
  · have hok : ((self.pool_for iface).cloned_client_for_address conn2
        shard.http_address).1 = some c := by
      simp [ConnectionPool.cloned_client_for_address, h3, h5]
    have hfst : (self.client_for_shard conn2 iface shard).1 = some c := by
      rw [client_for_shard_fst]; exact hok
    simp [GrpcProxy.proxy, hsf, hfst]

/-- Closed instance of C6: a worker-interface certificate call on the
fresh proxy with a failing connector yields the internal error with no
forward and no state change, and the same call with a recovered
connector succeeds with the backend's answer. -/
theorem connection_failure_not_cached_witness :
    GrpcProxy.proxy envA connFail backendA selfA .worker
        (.certificate ⟨[2]⟩) =
      (.error (.internal "could not connect to shard"), selfA,
        [.pool_get .worker shardB.http_address]) ∧
    (GrpcProxy.proxy envA connOk backendA selfA .worker
        (.certificate ⟨[2]⟩)).1 =
      backendA (Payload.certificate ⟨[2]⟩).method shardB.http_address
        (.certificate ⟨[2]⟩) :=
  connection_failure_not_cached envA connFail connOk backendA selfA .worker
    (.certificate ⟨[2]⟩) 6 shardB 1 rfl rfl rfl rfl rfl

/-- C7: the exact method surface. The node interface forwards
`handle_block_proposal`, `handle_certificate` and
`handle_chain_info_query`; the worker interface forwards those three
plus `handle_cross_chain_request`; every handler is the uniform proxy
routine at its own method and interface; every outbound forward
carries the inbound method's name and the unmodified payload; and the
cross-chain notification is itself routed via its embedded target
chain id (no route means not-found, no forward). -/
theorem method_surface_and_uniform_dispatch (env : DecodeEnv)
    (connector : Address → Option Client)
    (backend : Method → Address → Payload → Except Status Resp)
    (self : GrpcProxy) :
    methodSurface .node =
      [.handle_block_proposal, .handle_certificate,
       .handle_chain_info_query] ∧
    methodSurface .worker =
      [.handle_block_proposal, .handle_certificate,
       .handle_chain_info_query, .handle_cross_chain_request] ∧
    (∀ p, ValidatorNode.handle_block_proposal env connector backend self p =
      GrpcProxy.proxy env connector backend self .node (.blockProposal p)) ∧
    (∀ c, ValidatorNode.handle_certificate env connector backend self c =
      GrpcProxy.proxy env connector backend self .node (.certificate c)) ∧
    (∀ q, ValidatorNode.handle_chain_info_query env connector backend self q =
      GrpcProxy.proxy env connector backend self .node (.chainInfoQuery q)) ∧
    (∀ p, ValidatorWorker.handle_block_proposal env connector backend self p =
      GrpcProxy.proxy env connector backend self .worker (.blockProposal p)) ∧
    (∀ c, ValidatorWorker.handle_certificate env connector backend self c =
      GrpcProxy.proxy env connector backend self .worker (.certificate c)) ∧
    (∀ q, ValidatorWorker.handle_chain_info_query env connector backend
        self q =
      GrpcProxy.proxy env connector backend self .worker
        (.chainInfoQuery q)) ∧
    (∀ r, ValidatorWorker.handle_cross_chain_request env connector backend
        self r =
      GrpcProxy.proxy env connector backend self .worker
        (.crossChainRequest r)) ∧
    (∀ iface req i m a pl,
      Event.forward i m a pl ∈
          (GrpcProxy.proxy env connector backend self iface req).2.2 →
        i = iface ∧ m = req.method ∧ pl = req) ∧
    (∀ r, Proxyable.chain_id env (.crossChainRequest r) = none →
      ValidatorWorker.handle_cross_chain_request env connector backend
          self r =
        (.error (.not_found "could not find shard for message"), self,
          [])) := by
  refine ⟨rfl, rfl, fun _ => rfl, fun _ => rfl, fun _ => rfl, fun _ => rfl,
    fun _ => rfl, fun _ => rfl, fun _ => rfl, ?_, ?_⟩
  · intro iface req i m a pl
    cases hs : self.shard_for env req with
    | none => simp [GrpcProxy.proxy, hs]
    | some shard =>
      cases hc : (self.client_for_shard connector iface shard).1 with
      | none => simp [GrpcProxy.proxy, hs, hc]
      | some c =>
        simp only [GrpcProxy.proxy, hs, hc, List.mem_cons,
          List.not_mem_nil, or_false]
        rintro (h | h)
        · exact Event.noConfusion h
        · injection h with hi hm ha hp
          exact ⟨hi, hm, hp⟩
  · intro r h
    exact proxy_no_route_on_extraction_failure env connector backend self
      .worker (.crossChainRequest r) h

/-- Closed instance of C7: the surfaces are as stated, and a worker
cross-chain notification with an undecodable payload is routed and
fails not-found with no forward. -/
theorem method_surface_and_uniform_dispatch_witness :
    methodSurface .node =
      [.handle_block_proposal, .handle_certificate,
       .handle_chain_info_query] ∧
    methodSurface .worker =
      [.handle_block_proposal, .handle_certificate,
       .handle_chain_info_query, .handle_cross_chain_request] ∧
    ValidatorWorker.handle_cross_chain_request envA connOk backendA selfA
        ⟨[5]⟩ =
      (.error (.not_found "could not find shard for message"), selfA, []) :=
  ⟨(method_surface_and_uniform_dispatch envA connOk backendA selfA).1,
   (method_surface_and_uniform_dispatch envA connOk backendA selfA).2.1,
   (method_surface_and_uniform_dispatch envA connOk backendA
     selfA).2.2.2.2.2.2.2.2.2.2 ⟨[5]⟩ rfl⟩

/-- C8: every call, successful or failed at any step, leaves the two
network configurations of the proxy untouched; the connection pools
are the only state a call may change. -/
theorem call_leaves_configs_unchanged (env : DecodeEnv)
    (connector : Address → Option Client)
    (backend : Method → Address → Payload → Except Status Resp)
    (self : GrpcProxy) (iface : Interface) (req : Payload) :
    (GrpcProxy.proxy env connector backend self
        iface req).2.1.public_config = self.public_config ∧
    (GrpcProxy.proxy env connector backend self
        iface req).2.1.internal_config = self.internal_config :=
  ⟨proxy_snd_public env connector backend self iface req,
   proxy_snd_internal env connector backend self iface req⟩

/-- C9: routing-key extraction and shard resolution are deterministic
pure functions: the same payload yields the same key on repeated
extraction, resolution depends only on the shard map (two proxy states
with the same internal configuration resolve alike), and running any
call first does not change what a key resolves to. -/
theorem extraction_and_resolution_deterministic (env : DecodeEnv)
    (s1 s2 : GrpcProxy) (p : Payload)
    (h : s1.internal_config = s2.internal_config) :
    Proxyable.chain_id env p = Proxyable.chain_id env p ∧
    s1.shard_for env p = s2.shard_for env p ∧
    (∀ connector backend iface req,
      ((GrpcProxy.proxy env connector backend s1 iface req).2.1).shard_for
        env p = s1.shard_for env p) := by
  refine ⟨rfl, ?_, ?_⟩
  · simp [GrpcProxy.shard_for, h]
  · intro connector backend iface req
    simp [GrpcProxy.shard_for, proxy_snd_internal]

/-- Closed instance of C9: on the fresh proxy, the worker proposal
call leaves the resolution of the proposal payload unchanged. -/
theorem extraction_and_resolution_deterministic_witness :
    Proxyable.chain_id envA (.blockProposal ⟨[1]⟩) =
      Proxyable.chain_id envA (.blockProposal ⟨[1]⟩) ∧
    selfA.shard_for envA (.blockProposal ⟨[1]⟩) =
      selfA.shard_for envA (.blockProposal ⟨[1]⟩) ∧
    (∀ connector backend iface req,
      ((GrpcProxy.proxy envA connector backend selfA iface
          req).2.1).shard_for envA (.blockProposal ⟨[1]⟩) =
        selfA.shard_for envA (.blockProposal ⟨[1]⟩)) :=
  extraction_and_resolution_deterministic envA selfA selfA
    (.blockProposal ⟨[1]⟩) rfl

/-- C10: for a chain-info query, extraction is `none` both when the
explicit chain-id field is absent and when its conversion to the
canonical key fails, and either way the public interface answers with
the same not-found "no route" error and no outbound activity. -/
theorem chain_info_query_absent_or_unconvertible (env : DecodeEnv)
    (connector : Address → Option Client)
    (backend : Method → Address → Payload → Except Status Resp)
    (self : GrpcProxy) (q : ChainInfoQuery) (w : WireChainId)
    (h : q.chain_id = none ∨
      (q.chain_id = some w ∧ env.try_into_chain_id w = none)) :
    Proxyable.chain_id env (.chainInfoQuery q) = none ∧
    GrpcProxy.proxy env connector backend self .node (.chainInfoQuery q) =
      (.error (.not_found "could not find shard for message"), self, []) := by
  have hnone : Proxyable.chain_id env (.chainInfoQuery q) = none := by
    rcases h with h | ⟨ha, hb⟩
    · simp [Proxyable.chain_id, h]
    · simp [Proxyable.chain_id, ha, hb]
  exact ⟨hnone, by simp [GrpcProxy.proxy, GrpcProxy.shard_for, hnone]⟩

/-- Closed instance of C10: a chain-info query with no chain-id field
extracts nothing and is answered not-found at the node interface. -/
theorem chain_info_query_absent_or_unconvertible_witness :
    Proxyable.chain_id envA (.chainInfoQuery ⟨none⟩) = none ∧
    GrpcProxy.proxy envA connOk backendA selfA .node
        (.chainInfoQuery ⟨none⟩) =
      (.error (.not_found "could not find shard for message"), selfA, []) :=
  chain_info_query_absent_or_unconvertible envA connOk backendA selfA
    ⟨none⟩ [0] (Or.inl rfl)

end GrpcProxySpec
